import Mathlib

/-!
Verification of the event-scheduler core: a shallow embedding of the
backend's scheduling, worker retry, and broadcast logic
(src/backend/src/services/event.service.ts, the BullMQ worker, and the
Prisma schema), with theorems settling the specified properties.

Timestamps are modelled as integers (epoch milliseconds); ids and payload
strings as `String`.  Side effects (store writes, store reads, queue
enqueues, websocket broadcasts) are reified as an ordered effect list so
that ordering and presence/absence of effects can be stated.  Fallible
infrastructure calls (the durable create and the queue enqueue) are
modelled by explicit success flags; a JavaScript `throw` caught by the
surrounding `try/catch` becomes an `Except.error`.
-/

namespace EventScheduler

/-- The `EventStatus` enum of schema.prisma / migration.sql:
`'SCHEDULED', 'SENT', 'FAILED', 'RETRIED', 'PROCESSING'`. -/
inductive EventStatus where
  | SCHEDULED
  | SENT
  | FAILED
  | RETRIED
  | PROCESSING
deriving DecidableEq, Repr

/-- The `Event` model of schema.prisma (table `events`): id, message,
recipientEmail, sendAt, status, retryCount, createdAt, updatedAt. -/
structure Event where
  id : String
  message : String
  recipientEmail : String
  sendAt : Int
  status : EventStatus
  retryCount : Nat
  createdAt : Int
  updatedAt : Int
deriving DecidableEq, Repr

/-- `CreateEventData` (src/models/event.model.ts import): the fields the
controller passes to `EventService.scheduleEvent`. -/
structure CreateEventData where
  message : String
  recipientEmail : String
  sendAt : Int
deriving DecidableEq, Repr

/-- The payload object passed to `broadcastEventUpdate` in
event.service.ts: the full current state of the event, field by field
(`sendAt`/`createdAt`/`updatedAt` are serialized with `toISOString()`,
an injective formatting we keep as the integer instant). -/
structure BroadcastMessage where
  id : String
  message : String
  recipientEmail : String
  sendAt : Int
  status : EventStatus
  retryCount : Nat
  createdAt : Int
  updatedAt : Int
deriving DecidableEq, Repr

/-- The broadcast payload built from an event, exactly as both call sites
in event.service.ts build it (every field copied from the record). -/
def broadcastOf (e : Event) : BroadcastMessage :=
  { id := e.id
    message := e.message
    recipientEmail := e.recipientEmail
    sendAt := e.sendAt
    status := e.status
    retryCount := e.retryCount
    createdAt := e.createdAt
    updatedAt := e.updatedAt }

/-- A reified side effect, in execution order: a durable create
(`EventModel.createEvent` via prisma), a durable update
(`EventModel.updateEvent`), a durable read (`EventModel.getEventById`),
a BullMQ `eventQueue.add` (jobId, delay in ms, and the job data fields
eventId/recipientEmail/message), or a `broadcastEventUpdate`. -/
inductive Effect where
  | storeCreate (e : Event)
  | storeUpdate (e : Event)
  | storeRead (id : String)
  | enqueue (jobId : String) (delayMs : Int)
      (eventId recipientEmail message : String)
  | broadcast (m : BroadcastMessage)
deriving DecidableEq, Repr

/-- Whether an effect is a queue enqueue. -/
def isEnqueue : Effect → Bool
  | Effect.enqueue _ _ _ _ _ => true
  | _ => false

/-- Whether an effect is a broadcast. -/
def isBroadcast : Effect → Bool
  | Effect.broadcast _ => true
  | _ => false

/-- Whether an effect is a durable read. -/
def isRead : Effect → Bool
  | Effect.storeRead _ => true
  | _ => false

/-- Whether an effect mutates the Status Store (create or update). -/
def isMutation : Effect → Bool
  | Effect.storeCreate _ => true
  | Effect.storeUpdate _ => true
  | _ => false

/-- Whether a run re-armed a delayed retry, i.e. whether its effect list
contains any queue enqueue. -/
def reArmsJob (effs : List Effect) : Bool := effs.any isEnqueue

/-- `const MAX_RETRIES = 3` in the worker. -/
def MAX_RETRIES : Nat := 3

/-- `const RETRY_DELAY_MS = 1000` in the worker. -/
def RETRY_DELAY_MS : Nat := 1000

/-- The worker's backoff formula
`retryDelay = RETRY_DELAY_MS * Math.pow(2, currentRetryCount)`. -/
def retryDelayMs (r : Nat) : Nat := RETRY_DELAY_MS * 2 ^ r

/-- Modelled from the spec: `EventModel.createEvent`
(src/models/event.model.ts is imported by event.service.ts but is not
among the provided sources).  Per §4.1 the Scheduler "creates the
ScheduledItem in the Status Store with `status=SCHEDULED`,
`retryCount=0`", matching schema.prisma's `@default(SCHEDULED)`,
`@default(0)`, `@default(now())` on createdAt and `@updatedAt`. -/
def createEvent (data : CreateEventData) (newId : String) (now : Int) : Event :=
  { id := newId
    message := data.message
    recipientEmail := data.recipientEmail
    sendAt := data.sendAt
    status := EventStatus.SCHEDULED
    retryCount := 0
    createdAt := now
    updatedAt := now }

/-- Modelled from the spec: `EventModel.updateEvent` (not among the
provided sources) applied to the `UpdateEventData` built by
`EventService.updateEventStatus`: the status field is always set, the
retryCount field only when passed (`if (retryCount !== undefined)`), and
schema.prisma's `@updatedAt` refreshes updatedAt on every update. -/
def updateEvent (e : Event) (status : EventStatus) (retryCount : Option Nat)
    (now : Int) : Event :=
  { e with
    status := status
    retryCount := retryCount.getD e.retryCount
    updatedAt := now }

/-- `EventService.updateEventStatus` (event.service.ts): update the
record, then broadcast the updated record's full state.  Returns the
updated event and the ordered effects of the call. -/
def updateEventStatus (e : Event) (status : EventStatus)
    (retryCount : Option Nat) (now : Int) : Event × List Effect :=
  let updated := updateEvent e status retryCount now
  (updated, [Effect.storeUpdate updated, Effect.broadcast (broadcastOf updated)])

/-- `EventService.scheduleEvent` (event.service.ts): create the record,
compute `delay = sendAt - now` and `effectiveDelay = max(0, delay)`,
add the job (`jobId = newEvent.id`, data `eventId/recipientEmail/message`),
broadcast the new record, and return it.  `createOk` / `enqueueOk` model
whether the awaited infrastructure calls succeed; any throw is caught and
rethrown as `Error("Failed to schedule event.")`, and the effects that
had already happened before the throw remain. -/
def scheduleEvent (data : CreateEventData) (newId : String) (now : Int)
    (createOk enqueueOk : Bool) : List Effect × Except String Event :=
  if createOk = false then
    ([], Except.error "Failed to schedule event.")
  else
    let newEvent := createEvent data newId now
    let delay := newEvent.sendAt - now
    let effectiveDelay := max 0 delay
    if enqueueOk = false then
      ([Effect.storeCreate newEvent], Except.error "Failed to schedule event.")
    else
      ([Effect.storeCreate newEvent,
        Effect.enqueue newEvent.id effectiveDelay newEvent.id
          newEvent.recipientEmail newEvent.message,
        Effect.broadcast (broadcastOf newEvent)],
       Except.ok newEvent)

/-- The worker's job processor (the `eventWorker` handler): given the
currently stored record for the job's eventId (`none` when the record has
vanished, in which case the very first `updateEventStatus` throws), the
outcome of `simulateSendMessage`, and the current time, it returns the
stored record afterwards, the ordered effects, and the processor's
result (`Except.error` models a thrown error, which BullMQ records as a
failed job).  Faithful to the source: PROCESSING is marked first; on
success the record is marked SENT; on failure the record is re-read
(`EventService.getEventDetails`), the authoritative retryCount compared
with MAX_RETRIES, RETRIED/retryCount+1 or FAILED written, the backoff
delay computed (and, as in the source, never used to enqueue anything),
and an error thrown. -/
def workerStep (stored : Option Event) (sendSuccess : Bool) (now : Int) :
    Option Event × List Effect × Except String Unit :=
  match stored with
  | none => (none, [], Except.error "record to update not found")
  | some e =>
    let p1 := updateEventStatus e EventStatus.PROCESSING none now
    if sendSuccess then
      let p2 := updateEventStatus p1.1 EventStatus.SENT none now
      (some p2.1, p1.2 ++ p2.2, Except.ok ())
    else
      let currentRetryCount := p1.1.retryCount
      if currentRetryCount < MAX_RETRIES then
        let nextRetryCount := currentRetryCount + 1
        let _retryDelay := retryDelayMs currentRetryCount
        let p2 := updateEventStatus p1.1 EventStatus.RETRIED (some nextRetryCount) now
        (some p2.1, p1.2 ++ [Effect.storeRead e.id] ++ p2.2,
         Except.error "Simulated send failure, marking for potential retry by external system or monitoring.")
      else
        let p2 := updateEventStatus p1.1 EventStatus.FAILED none now
        (some p2.1, p1.2 ++ [Effect.storeRead e.id] ++ p2.2,
         Except.error "Event failed after maximum retries.")

/-- `decide(outcome, retryCount)` result triple, as the spec's Retry
State Machine describes it: next status, next retry count, and whether a
delayed retry is re-armed. -/
structure Decision where
  nextStatus : EventStatus
  nextRetryCount : Nat
  reArm : Bool
deriving DecidableEq, Repr

/-- The spec's claimed transition table (written from the spec's words,
for comparison with the worker's actual behaviour): success ⇒ SENT, r,
no re-arm; failure with r < MAX_RETRIES ⇒ RETRIED, r+1, re-arm; failure
with r = MAX_RETRIES ⇒ FAILED, r, no re-arm. -/
def decideSpec (outcome : Bool) (r : Nat) : Decision :=
  if outcome then ⟨EventStatus.SENT, r, false⟩
  else if r < MAX_RETRIES then ⟨EventStatus.RETRIED, r + 1, true⟩
  else ⟨EventStatus.FAILED, r, false⟩

/-- One worker attempt on a stored event, with arbitrary send outcome and
time: the relation through which the Worker Pool mutates a record. -/
def AttemptStep (e e' : Event) : Prop :=
  ∃ ok now effs r, workerStep (some e) ok now = (some e', effs, r)

/-- Records reachable by the core for one item: creation by the
Scheduler followed by any number of worker attempts. -/
inductive EvReach : Event → Prop where
  | created (data : CreateEventData) (newId : String) (now : Int) :
      EvReach (createEvent data newId now)
  | step (e e' : Event) : EvReach e → AttemptStep e e' → EvReach e'

/-- One item's system state: its stored record (if any) and whether a
QueuedJob for its id is pending in the Delay Queue. -/
structure SysState where
  stored : Option Event
  pending : Bool
deriving DecidableEq, Repr

/-- The system state right after a successful `scheduleEvent` for the
item: the created record is stored and its job is pending. -/
def initState (data : CreateEventData) (newId : String) (now : Int) : SysState :=
  ⟨some (createEvent data newId now), true⟩

/-- One core step on an item's system state: the Delay Queue releases
the pending job exactly once (BullMQ single delivery per release) and the
worker runs its attempt; a job remains pending afterwards only if the
attempt enqueued one. -/
inductive SysStep : SysState → SysState → Prop where
  | release (s : SysState) (e e' : Event) (ok : Bool) (now : Int)
      (effs : List Effect) (r : Except String Unit) :
      s.pending = true → s.stored = some e →
      workerStep (some e) ok now = (some e', effs, r) →
      SysStep s ⟨some e', reArmsJob effs⟩

/-- System states reachable from a successful schedule of the item. -/
inductive SysReach : SysState → Prop where
  | init (data : CreateEventData) (newId : String) (now : Int) :
      SysReach (initState data newId now)
  | step (s s' : SysState) : SysReach s → SysStep s s' → SysReach s'

/-- A status after which the spec says no further mutation occurs. -/
def Terminal (e : Event) : Prop :=
  e.status = EventStatus.SENT ∨ e.status = EventStatus.FAILED

/-- Helper for `wellBroadcast`: when the first argument is `some e`, a
mutation with post-state `e` is awaiting its broadcast; the next
broadcast encountered must carry exactly `broadcastOf e` and no further
mutation may come first; with `none`, no broadcast may occur before the
next mutation. -/
def wellBroadcastAux : Option Event → List Effect → Bool
  | none, [] => true
  | some _, [] => false
  | none, Effect.storeCreate e :: rest => wellBroadcastAux (some e) rest
  | none, Effect.storeUpdate e :: rest => wellBroadcastAux (some e) rest
  | none, Effect.broadcast _ :: _ => false
  | none, _ :: rest => wellBroadcastAux none rest
  | some e, Effect.broadcast m :: rest =>
      decide (m = broadcastOf e) && wellBroadcastAux none rest
  | some _, Effect.storeCreate _ :: _ => false
  | some _, Effect.storeUpdate _ :: _ => false
  | some e, _ :: rest => wellBroadcastAux (some e) rest

/-- Every Status Store mutation in the effect list is followed by exactly
one broadcast, carrying precisely the post-mutation state, before any
further mutation; and no broadcast occurs without a preceding mutation. -/
def wellBroadcast (effs : List Effect) : Bool := wellBroadcastAux none effs

/-- Whether a durable read occurs before the first Status Store mutation
of the effect list (the ordering the spec prescribes for the worker's
re-read relative to the PROCESSING mark). -/
def readBeforeFirstMutation : List Effect → Bool
  | [] => false
  | Effect.storeRead _ :: _ => true
  | Effect.storeCreate _ :: _ => false
  | Effect.storeUpdate _ :: _ => false
  | _ :: rest => readBeforeFirstMutation rest

/-! Concrete inputs used by the closed theorems below. -/

/-- A concrete scheduling request. -/
def dataA : CreateEventData :=
  { message := "hello", recipientEmail := "user@example.com", sendAt := 5000 }

/-- A freshly created record for `dataA` (retryCount 0, SCHEDULED). -/
def evA : Event := createEvent dataA "ev-a" 0

/-- A second concrete scheduling request. -/
def dataB : CreateEventData :=
  { message := "reminder", recipientEmail := "b@example.com", sendAt := 9000 }

/-- A freshly created record for `dataB`. -/
def evB : Event := createEvent dataB "ev-b" 0

/-- A record that has already reached SENT. -/
def evSentC4 : Event :=
  { createEvent dataA "ev-c4" 0 with status := EventStatus.SENT }

/-! Characterisations of one worker attempt, by outcome. -/

/-- A successful attempt: PROCESSING is written and broadcast, then SENT
is written and broadcast; retryCount is untouched and nothing is read or
enqueued. -/
theorem workerStep_true (e : Event) (now : Int) :
    workerStep (some e) true now =
      (some { e with status := EventStatus.SENT, updatedAt := now },
       [Effect.storeUpdate { e with status := EventStatus.PROCESSING, updatedAt := now },
        Effect.broadcast (broadcastOf { e with status := EventStatus.PROCESSING, updatedAt := now }),
        Effect.storeUpdate { e with status := EventStatus.SENT, updatedAt := now },
        Effect.broadcast (broadcastOf { e with status := EventStatus.SENT, updatedAt := now })],
       Except.ok ()) := by
  simp [workerStep, updateEventStatus, updateEvent]

/-- A failed attempt with retries remaining: PROCESSING is written and
broadcast, the record is re-read, then RETRIED with retryCount + 1 is
written and broadcast, and the processor throws; nothing is enqueued. -/
theorem workerStep_false_lt (e : Event) (now : Int)
    (h : e.retryCount < MAX_RETRIES) :
    workerStep (some e) false now =
      (some { e with status := EventStatus.RETRIED, retryCount := e.retryCount + 1, updatedAt := now },
       [Effect.storeUpdate { e with status := EventStatus.PROCESSING, updatedAt := now },
        Effect.broadcast (broadcastOf { e with status := EventStatus.PROCESSING, updatedAt := now }),
        Effect.storeRead e.id,
        Effect.storeUpdate { e with status := EventStatus.RETRIED, retryCount := e.retryCount + 1, updatedAt := now },
        Effect.broadcast (broadcastOf { e with status := EventStatus.RETRIED, retryCount := e.retryCount + 1, updatedAt := now })],
       Except.error "Simulated send failure, marking for potential retry by external system or monitoring.") := by
  simp [workerStep, updateEventStatus, updateEvent, h]

/-- A failed attempt with no retries remaining: PROCESSING is written and
broadcast, the record is re-read, then FAILED is written and broadcast
with retryCount untouched, and the processor throws; nothing is
enqueued. -/
theorem workerStep_false_ge (e : Event) (now : Int)
    (h : ¬ e.retryCount < MAX_RETRIES) :
    workerStep (some e) false now =
      (some { e with status := EventStatus.FAILED, updatedAt := now },
       [Effect.storeUpdate { e with status := EventStatus.PROCESSING, updatedAt := now },
        Effect.broadcast (broadcastOf { e with status := EventStatus.PROCESSING, updatedAt := now }),
        Effect.storeRead e.id,
        Effect.storeUpdate { e with status := EventStatus.FAILED, updatedAt := now },
        Effect.broadcast (broadcastOf { e with status := EventStatus.FAILED, updatedAt := now })],
       Except.error "Event failed after maximum retries.") := by
  simp [workerStep, updateEventStatus, updateEvent, h]

/-- No worker attempt ever enqueues a job: the effect list of every run
contains no enqueue. -/
theorem workerStep_no_enqueue (stored : Option Event) (ok : Bool) (now : Int) :
    reArmsJob (workerStep stored ok now).2.1 = false := by
  cases stored with
  | none => simp [workerStep, reArmsJob]
  | some e =>
    cases ok with
    | true => simp [workerStep_true, reArmsJob, isEnqueue]
    | false =>
      by_cases h : e.retryCount < MAX_RETRIES
      · simp [workerStep_false_lt e now h, reArmsJob, isEnqueue]
      · simp [workerStep_false_ge e now h, reArmsJob, isEnqueue]

/-- C1: the retry decision at the failing input (send failure, current
retryCount 0): the worker does record RETRIED with retryCount 1, but no
re-arm happens — the run enqueues nothing (it throws instead, and jobs
are added with `attempts: 1`, so nothing is redelivered) — whereas the
spec's transition table demands a re-arm for a failure with r < 3.  This
contradicts the repository's own README ("automatically retries up to 3
times with exponential backoff"): the code is the slip. -/
theorem retry_decision_no_reArm_at_r0 :
    (workerStep (some evA) false 0).1 =
      some { evA with status := EventStatus.RETRIED, retryCount := 1, updatedAt := 0 } ∧
    reArmsJob (workerStep (some evA) false 0).2.1 = false ∧
    (decideSpec false 0).reArm = true := by
  refine ⟨by decide, ?_, by decide⟩
  exact workerStep_no_enqueue (some evA) false 0

/-- C2: at the failing input (send failure, retryCount 0), the worker's
backoff formula `retryDelayMs` does yield the specified 1000/2000/4000 ms
ladder, and the record is marked RETRIED with retryCount 1 — but the run
emits no enqueue whatsoever: the computed delay is dead code, no
QueuedJob with `notBefore = now + backoff(r)` is ever created, so no
retry ever executes (contradicting the README's promised automatic
retries with exponential backoff). -/
theorem backoff_formula_computed_but_unused :
    ((workerStep (some evB) false 0).2.1.any isEnqueue) = false ∧
    (workerStep (some evB) false 0).1 =
      some { evB with status := EventStatus.RETRIED, retryCount := 1, updatedAt := 0 } ∧
    retryDelayMs 0 = 1000 ∧ retryDelayMs 1 = 2000 ∧ retryDelayMs 2 = 4000 := by
  refine ⟨?_, by decide, by decide, by decide, by decide⟩
  exact workerStep_no_enqueue (some evB) false 0

/-- C5: within a successful `scheduleEvent` call the side effects occur
in exactly this order — durable create, then queue enqueue, then
broadcast — and only then is the created record returned. -/
theorem schedule_effect_ordering (data : CreateEventData) (newId : String) (now : Int) :
    scheduleEvent data newId now true true =
      ([Effect.storeCreate (createEvent data newId now),
        Effect.enqueue newId (max 0 (data.sendAt - now)) newId
          data.recipientEmail data.message,
        Effect.broadcast (broadcastOf (createEvent data newId now))],
       Except.ok (createEvent data newId now)) := rfl

/-- C6: if the durable create fails, `scheduleEvent` performs no effect
at all — no enqueue, no broadcast, no partial state — and fails
wholesale with the error "Failed to schedule event.", regardless of
whether the enqueue would have succeeded. -/
theorem create_failure_fails_wholesale (data : CreateEventData) (newId : String)
    (now : Int) (enqueueOk : Bool) :
    scheduleEvent data newId now false enqueueOk =
      ([], Except.error "Failed to schedule event.") := rfl

/-- C9: a successful `scheduleEvent` returns the created record, whose
status is SCHEDULED and retryCount 0; its effects contain exactly one
enqueue, whose jobId equals the record's id and whose delay is
`max 0 (sendAt - now)`; and for any `sendAt` in the past the delay is 0
(the request is accepted and enqueued, not rejected). -/
theorem schedule_initial_state_and_clamped_delay (data : CreateEventData)
    (newId : String) (now : Int) :
    (scheduleEvent data newId now true true).2 =
        Except.ok (createEvent data newId now) ∧
    (createEvent data newId now).status = EventStatus.SCHEDULED ∧
    (createEvent data newId now).retryCount = 0 ∧
    (scheduleEvent data newId now true true).1.filter isEnqueue =
      [Effect.enqueue newId (max 0 (data.sendAt - now)) newId
        data.recipientEmail data.message] ∧
    (data.sendAt ≤ now → max 0 (data.sendAt - now) = 0) := by
  refine ⟨rfl, rfl, rfl, ?_, ?_⟩
  · simp [scheduleEvent, createEvent, isEnqueue, broadcastOf]
  · intro h
    exact max_eq_left (by omega)

/-- A scheduling request whose `sendAt` lies in the past. -/
def dataPast : CreateEventData :=
  { message := "late", recipientEmail := "p@example.com", sendAt := -100 }

/-- Witness for C9 at a concrete past `sendAt`: the hypothesis
`sendAt ≤ now` holds at `now = 0` and the clamped delay is 0. -/
theorem schedule_initial_state_and_clamped_delay_witness :
    dataPast.sendAt ≤ (0 : Int) ∧ max 0 (dataPast.sendAt - 0) = 0 :=
  ⟨by decide,
   (schedule_initial_state_and_clamped_delay dataPast "ev-past" 0).2.2.2.2 (by decide)⟩

/-- C10: if the durable create succeeds but the enqueue throws,
`scheduleEvent` fails with "Failed to schedule event." while the created
record — status SCHEDULED, retryCount 0 — remains the sole effect (not
rolled back), and no broadcast is published. -/
theorem enqueue_failure_keeps_created_record (data : CreateEventData)
    (newId : String) (now : Int) :
    scheduleEvent data newId now true false =
      ([Effect.storeCreate (createEvent data newId now)],
       Except.error "Failed to schedule event.") ∧
    (createEvent data newId now).status = EventStatus.SCHEDULED ∧
    (createEvent data newId now).retryCount = 0 ∧
    (scheduleEvent data newId now true false).1.any isBroadcast = false :=
  ⟨rfl, rfl, rfl, rfl⟩

/-- Exhaustive case analysis of the record mutation performed by one
worker attempt: SENT with retryCount untouched, RETRIED with retryCount
incremented (only when below the ceiling), or FAILED with retryCount
untouched (only when at or above the ceiling). -/
theorem attemptStep_cases (e e' : Event) (h : AttemptStep e e') :
    (e'.status = EventStatus.SENT ∧ e'.retryCount = e.retryCount) ∨
    (e'.status = EventStatus.RETRIED ∧ e'.retryCount = e.retryCount + 1 ∧
      e.retryCount < MAX_RETRIES) ∨
    (e'.status = EventStatus.FAILED ∧ e'.retryCount = e.retryCount ∧
      ¬ e.retryCount < MAX_RETRIES) := by
  obtain ⟨ok, now, effs, r, hw⟩ := h
  cases ok with
  | true =>
    rw [workerStep_true] at hw
    simp only [Prod.mk.injEq, Option.some.injEq] at hw
    obtain ⟨h1, -, -⟩ := hw
    subst h1
    exact Or.inl ⟨rfl, rfl⟩
  | false =>
    by_cases hr : e.retryCount < MAX_RETRIES
    · rw [workerStep_false_lt e now hr] at hw
      simp only [Prod.mk.injEq, Option.some.injEq] at hw
      obtain ⟨h1, -, -⟩ := hw
      subst h1
      exact Or.inr (Or.inl ⟨rfl, rfl, hr⟩)
    · rw [workerStep_false_ge e now hr] at hw
      simp only [Prod.mk.injEq, Option.some.injEq] at hw
      obtain ⟨h1, -, -⟩ := hw
      subst h1
      exact Or.inr (Or.inr ⟨rfl, rfl, hr⟩)

/-- C3: retryCount starts at 0 on creation, no worker attempt ever
decreases it, and over every reachable record it never exceeds
MAX_RETRIES (3); whenever the status is FAILED the retryCount equals
MAX_RETRIES. -/
theorem retryCount_bounded_and_monotone :
    (∀ data newId now, (createEvent data newId now).retryCount = 0) ∧
    (∀ e e', AttemptStep e e' → e.retryCount ≤ e'.retryCount) ∧
    (∀ e, EvReach e → e.retryCount ≤ MAX_RETRIES ∧
        (e.status = EventStatus.FAILED → e.retryCount = MAX_RETRIES)) := by
  refine ⟨fun data newId now => rfl, ?_, ?_⟩
  · intro e e' h
    rcases attemptStep_cases e e' h with ⟨-, hc⟩ | ⟨-, hc, -⟩ | ⟨-, hc, -⟩ <;> omega
  · intro e h
    induction h with
    | created data newId now =>
      refine ⟨by simp [createEvent, MAX_RETRIES], ?_⟩
      intro hs
      simp [createEvent] at hs
    | step e e' hre hstep ih =>
      obtain ⟨ihle, ihfail⟩ := ih
      rcases attemptStep_cases e e' hstep with ⟨hs, hc⟩ | ⟨hs, hc, hlt⟩ | ⟨hs, hc, hge⟩
      · exact ⟨by omega, fun hf => by rw [hs] at hf; cases hf⟩
      · exact ⟨by omega, fun hf => by rw [hs] at hf; cases hf⟩
      · exact ⟨by omega, fun _ => by omega⟩

/-- The record reached from `evA` by one failed attempt at time 0. -/
def evR : Event :=
  { evA with status := EventStatus.RETRIED, retryCount := 1, updatedAt := 0 }

/-- Witness for C3 at concrete inputs: a concrete attempt step from
`evA` to `evR` does not decrease retryCount, and the freshly created
record satisfies the bound and the FAILED implication. -/
theorem retryCount_bounded_and_monotone_witness :
    evA.retryCount ≤ evR.retryCount ∧
    (createEvent dataA "ev-w3" 0).retryCount ≤ MAX_RETRIES ∧
    ((createEvent dataA "ev-w3" 0).status = EventStatus.FAILED →
      (createEvent dataA "ev-w3" 0).retryCount = MAX_RETRIES) :=
  ⟨retryCount_bounded_and_monotone.2.1 evA evR ⟨false, 0, _, _, rfl⟩,
   (retryCount_bounded_and_monotone.2.2 _ (EvReach.created dataA "ev-w3" 0)).1,
   (retryCount_bounded_and_monotone.2.2 _ (EvReach.created dataA "ev-w3" 0)).2⟩

/-- After any core step the item has no pending QueuedJob: the release
consumes the job and the worker never enqueues another. -/
theorem sysStep_pending_false (s s' : SysState) (h : SysStep s s') :
    s'.pending = false := by
  cases h with
  | release e e' ok now effs r hp hs hw =>
    show reArmsJob effs = false
    have hne := workerStep_no_enqueue (some e) ok now
    rw [hw] at hne
    exact hne

/-- C4 counterexample: the attempt procedure does not guard terminal
states.  A redelivered job for `evSentC4` (status SENT, retryCount 0)
whose send fails mutates the record to RETRIED with retryCount 1 — the
claim that no release or redelivery of a job carrying the item's id ever
mutates a SENT item again is false at this input. -/
theorem sent_item_mutated_by_redelivered_job :
    (workerStep (some evSentC4) false 7).1 =
      some { evSentC4 with status := EventStatus.RETRIED, retryCount := 1, updatedAt := 7 } ∧
    (workerStep (some evSentC4) false 7).1 ≠ some evSentC4 := by
  constructor <;> decide

/-- C4 amended: no core step leaves a pending job behind (the worker
never re-arms), so a reachable record in a terminal state (SENT or
FAILED) has no pending QueuedJob, and — since every core step requires a
pending job to release — no further core step exists: the stored record
never changes again.  (A queue-level redelivery, which bypasses this, is
exactly what the counterexample exhibits.) -/
theorem terminal_quiescent_without_redelivery :
    (∀ s s', SysStep s s' → s'.pending = false) ∧
    (∀ s e, SysReach s → s.stored = some e → Terminal e → s.pending = false) ∧
    (∀ s, s.pending = false → ∀ s', Relation.ReflTransGen SysStep s s' → s' = s) := by
  refine ⟨sysStep_pending_false, ?_, ?_⟩
  · intro s e hre hs ht
    cases hre with
    | init data newId now =>
      obtain rfl : e = createEvent data newId now := by
        simpa [initState] using hs.symm
      rcases ht with h | h <;> simp [createEvent] at h
    | step s0 s1 hre0 hstep => exact sysStep_pending_false s0 s hstep
  · intro s hp s' hstar
    rcases Relation.ReflTransGen.cases_head hstar with h | ⟨b, hb, -⟩
    · exact h.symm
    · cases hb with
      | release e e' ok now effs r hpend hstored hw =>
        rw [hp] at hpend
        cases hpend

/-- The record created when scheduling `dataB` under id "ev-w4". -/
def evW4a : Event := createEvent dataB "ev-w4" 0

/-- `evW4a` after a successful attempt at time 1 (status SENT). -/
def evW4b : Event := { evW4a with status := EventStatus.SENT, updatedAt := 1 }

/-- Effects of the successful attempt taking `evW4a` to `evW4b`. -/
def effsW4 : List Effect := (workerStep (some evW4a) true 1).2.1

/-- The system state after scheduling `dataB` and one successful
release: the stored record is SENT. -/
def sysW4 : SysState := ⟨some evW4b, reArmsJob effsW4⟩

/-- Witness for C4 at a concrete reachable terminal state: after a
schedule and one successful release, the SENT record has no pending
QueuedJob. -/
theorem terminal_quiescent_without_redelivery_witness : sysW4.pending = false :=
  terminal_quiescent_without_redelivery.2.1 sysW4 evW4b
    (SysReach.step _ _ (SysReach.init dataB "ev-w4" 0)
      (SysStep.release (initState dataB "ev-w4" 0) evW4a evW4b true 1 effsW4
        (Except.ok ()) rfl rfl rfl))
    rfl (Or.inl rfl)

/-- A record used by the C7 counterexample. -/
def evC7 : Event := createEvent dataA "ev-c7" 2

/-- C7 counterexample: the claim requires the worker to re-read the
record before marking PROCESSING on every attempt; in the code the very
first effect of a failed attempt is already the PROCESSING store update
(no read precedes any mutation), and a successful attempt performs no
re-read at all. -/
theorem processing_precedes_reread_cex :
    readBeforeFirstMutation ((workerStep (some evC7) false 3).2.1) = false ∧
    ((workerStep (some evC7) true 3).2.1.any isRead) = false := by
  constructor <;> decide

/-- C7 amended: the worker marks PROCESSING first (and publishes); only
when the send fails does it re-read the record from the Status Store —
the read effect precedes the decision's store update — and the retry
decision is computed from the re-read record's retryCount (the queued
payload carries no attempt count at all); a successful attempt performs
no read. -/
theorem reread_only_on_failure_before_decision (e : Event) (now : Int) :
    workerStep (some e) false now =
      (some (if e.retryCount < MAX_RETRIES
             then { e with status := EventStatus.RETRIED, retryCount := e.retryCount + 1, updatedAt := now }
             else { e with status := EventStatus.FAILED, updatedAt := now }),
       [Effect.storeUpdate { e with status := EventStatus.PROCESSING, updatedAt := now },
        Effect.broadcast (broadcastOf { e with status := EventStatus.PROCESSING, updatedAt := now }),
        Effect.storeRead e.id,
        Effect.storeUpdate (if e.retryCount < MAX_RETRIES
             then { e with status := EventStatus.RETRIED, retryCount := e.retryCount + 1, updatedAt := now }
             else { e with status := EventStatus.FAILED, updatedAt := now }),
        Effect.broadcast (broadcastOf (if e.retryCount < MAX_RETRIES
             then { e with status := EventStatus.RETRIED, retryCount := e.retryCount + 1, updatedAt := now }
             else { e with status := EventStatus.FAILED, updatedAt := now }))],
       Except.error (if e.retryCount < MAX_RETRIES
             then "Simulated send failure, marking for potential retry by external system or monitoring."
             else "Event failed after maximum retries.")) ∧
    ((workerStep (some e) true now).2.1.any isRead) = false := by
  constructor
  · by_cases h : e.retryCount < MAX_RETRIES
    · rw [workerStep_false_lt e now h]
      simp [h]
    · rw [workerStep_false_ge e now h]
      simp [h]
  · rw [workerStep_true]
    simp [isRead]

/-- A scheduling request used by the C8 counterexample. -/
def dataC8 : CreateEventData :=
  { message := "digest", recipientEmail := "c@example.com", sendAt := 100 }

/-- C8 counterexample: when the enqueue fails after the durable create,
the run's only effect is the create — a Status Store mutation followed
by no BroadcastMessage — so the claim that every mutation is followed by
exactly one matching broadcast is false at this input. -/
theorem create_without_broadcast_cex :
    (scheduleEvent dataC8 "ev-c8" 0 true false).1 =
      [Effect.storeCreate (createEvent dataC8 "ev-c8" 0)] ∧
    wellBroadcast ((scheduleEvent dataC8 "ev-c8" 0 true false).1) = false := by
  constructor <;> decide

/-- C8 amended: in every successful `scheduleEvent` run, in every
`updateEventStatus` call, and in every worker attempt, each Status Store
mutation is followed by exactly one BroadcastMessage carrying precisely
the post-mutation record (before any further mutation), and no broadcast
occurs without a preceding mutation; the guarantee fails only when the
enqueue throws after the create (the counterexample's run). -/
theorem each_mutation_broadcast_identically :
    (∀ data newId now, wellBroadcast (scheduleEvent data newId now true true).1 = true) ∧
    (∀ e st rc now, wellBroadcast (updateEventStatus e st rc now).2 = true) ∧
    (∀ stored ok now, wellBroadcast (workerStep stored ok now).2.1 = true) := by
  refine ⟨?_, ?_, ?_⟩
  · intro data newId now
    simp [scheduleEvent, wellBroadcast, wellBroadcastAux]
  · intro e st rc now
    simp [updateEventStatus, wellBroadcast, wellBroadcastAux]
  · intro stored ok now
    cases stored with
    | none => simp [workerStep, wellBroadcast, wellBroadcastAux]
    | some e =>
      cases ok with
      | true =>
        rw [workerStep_true]
        simp [wellBroadcast, wellBroadcastAux]
      | false =>
        by_cases h : e.retryCount < MAX_RETRIES
        · rw [workerStep_false_lt e now h]
          simp [wellBroadcast, wellBroadcastAux]
        · rw [workerStep_false_ge e now h]
          simp [wellBroadcast, wellBroadcastAux]

end EventScheduler
